import Mathlib

/-!
Verification of the affinity-binding protocol layer of the hwlocality
repository: a shallow embedding of `src/cpu/binding.rs` and
`src/memory/binding.rs`, followed by theorems about the flag validators,
the native-call wrapper and the error translators.

Machine integers are modelled as `Int`/`Nat`; the process-global `errno`
register and the raw result of a native call are modelled as an explicit
`NativeEnv` record passed to the functions that read them; the side
effects of the native invokers (allocating the output cpuset, performing
the one native call) are recorded as an explicit event trace.
-/

/-- A CPU set is an ordered bit-indexed collection of processing-unit
identifiers; this layer treats it as opaque data, so a bitmap encoded as
a natural number suffices. -/
abbrev CpuSet := Nat

/-- The empty cpuset produced by `CpuSet::new()`. -/
def CpuSet.new : CpuSet := 0

/-- Errno value of `ENOSYS` on Linux (from `libc`). -/
def ENOSYS : Int := 38

/-- Errno value of `EXDEV` on Linux (from `libc`). -/
def EXDEV : Int := 18

/-- Errno value of `ENOMEM` on Linux (from `libc`). -/
def ENOMEM : Int := 12

/-- Errno value of `EINVAL` on Linux (from `libc`). -/
def EINVAL : Int := 22

/-- Object that is being bound to particular CPUs
(`CpuBoundObject` in `src/cpu/binding.rs`). -/
inductive CpuBoundObject
  | ProcessOrThread
  | Thread
  | ThisProgram
deriving DecidableEq, Repr, Fintype

/-- Operation on that object's CPU binding
(`CpuBindingOperation` in `src/cpu/binding.rs`). -/
inductive CpuBindingOperation
  | GetBinding
  | SetBinding
  | GetLastLocation
deriving DecidableEq, Repr, Fintype

/-- Process/thread binding flags (`CpuBindingFlags` in
`src/cpu/binding.rs`): one Boolean field per flag bit of the bitflags
set. Field order follows the source declaration order. -/
structure CpuBindingFlags where
  assume_single_thread : Bool
  thread : Bool
  process : Bool
  strict : Bool
  no_memory_binding : Bool
deriving DecidableEq, Repr, Fintype

/-- Raw bit pattern of a flag set, as returned by `bits()`.
`ASSUME_SINGLE_THREAD = 1 << 31` is declared in `src/cpu/binding.rs`;
the remaining bit values (`HWLOC_CPUBIND_PROCESS = 1 << 0`,
`HWLOC_CPUBIND_THREAD = 1 << 1`, `HWLOC_CPUBIND_STRICT = 1 << 2`,
`HWLOC_CPUBIND_NOMEMBIND = 1 << 3`) come from the `hwlocality_sys`
crate mirroring the native hwloc headers. -/
def CpuBindingFlags.bits (f : CpuBindingFlags) : Nat :=
  (if f.assume_single_thread then 2 ^ 31 else 0) +
    (if f.process then 1 else 0) +
    (if f.thread then 2 else 0) +
    (if f.strict then 4 else 0) +
    (if f.no_memory_binding then 8 else 0)

/-- Number of target-selector flags set, i.e. the `count_ones()` of the
flag set masked with `PROCESS | THREAD | ASSUME_SINGLE_THREAD`. -/
def CpuBindingFlags.numTargetFlags (f : CpuBindingFlags) : Nat :=
  (if f.process then 1 else 0) + (if f.thread then 1 else 0) +
    (if f.assume_single_thread then 1 else 0)

/-- `CpuBindingFlags::validate` from `src/cpu/binding.rs`. The
compile-time platform predicate `cfg!(target_os = "linux")` is the
explicit parameter `linux`. Returns the validated flags, free of
`ASSUME_SINGLE_THREAD`, or `none` on rejection. -/
def CpuBindingFlags.validate (self : CpuBindingFlags) (linux : Bool)
    (target : CpuBoundObject) (operation : CpuBindingOperation) :
    Option CpuBindingFlags :=
  -- THREAD can only be specified on process binding functions on Linux
  let is_linux_thread_special_case :=
    self.thread && decide (target = CpuBoundObject.ProcessOrThread)
  if is_linux_thread_special_case && !linux then
    none
  else
    -- Exactly one target flag when targeting the active process, none
    -- otherwise, except for the special case above
    let num_target_flags := self.numTargetFlags
    if num_target_flags ≠ (if target = CpuBoundObject.ThisProgram then 1 else 0)
        ∧ ¬(num_target_flags = 1 ∧ is_linux_thread_special_case = true) then
      none
    else
      -- Operation-specific considerations
      let operationOk : Bool :=
        match operation with
        | CpuBindingOperation.GetLastLocation =>
          !(self.strict || self.no_memory_binding)
        | CpuBindingOperation.SetBinding => true
        | CpuBindingOperation.GetBinding =>
          !((self.strict && decide (target = CpuBoundObject.Thread)) ||
            self.no_memory_binding)
      if operationOk then
        -- Clear virtual ASSUME_SINGLE_THREAD flag, which served its purpose
        some { self with assume_single_thread := false }
      else
        none

/-- Errors that can occur when binding processes or threads to cpusets
(`CpuBindingError` in `src/cpu/binding.rs`). `BadFlags` carries the flag
set that was requested (through `FlagsError` in the source). -/
inductive CpuBindingError
  | BadObject (object : CpuBoundObject)
  | BadFlags (flags : CpuBindingFlags)
  | BadCpuSet (object : CpuBoundObject) (set : CpuSet)
deriving DecidableEq, Repr

/-- Raw hwloc error record (`RawHwlocError` from the `errors` module):
the name of the failing native API and the errno observed after the
failing call, when one was readable. -/
structure RawHwlocError where
  api : String
  errno : Option Int
deriving DecidableEq, Repr

/-- State of the native layer observed by one invocation: the raw
integer result of the native call and the value of the process-global
errno register after it, plus the cpuset the native call writes into the
caller's output buffer on a successful query. -/
structure NativeEnv where
  result : Int
  osErrno : Option Int
  output : CpuSet
deriving DecidableEq, Repr

/-- Modelled from the spec: `errors::call_hwloc_int_normal` (the
`errors` module is not part of the provided sources). Per the spec's
error-translation section, a native result of ≥ 0 is success and a
failing call is reported together with the OS error number read
immediately after it. -/
def call_hwloc_int_normal (api : String) (env : NativeEnv) :
    Except RawHwlocError Int :=
  if 0 ≤ env.result then Except.ok env.result
  else Except.error { api := api, errno := env.osErrno }

/-- Outcome of `call_hwloc` (CPU binding): success, a structured
`CpuBindingError` (the `HybridError::Rust` branch), a surfaced raw
native error (the `HybridError::Hwloc` branch), or a panic of the
`.expect(...)` inside the `EXDEV` branch. -/
inductive CallResult
  | ok
  | rustErr (e : CpuBindingError)
  | hwlocErr (e : RawHwlocError)
  | panicked
deriving DecidableEq, Repr

/-- `call_hwloc` from `src/cpu/binding.rs`: translate known errors of a
CPU-binding native call into higher-level `CpuBindingError`s. -/
def call_hwloc (api : String) (object : CpuBoundObject)
    (cpuset : Option CpuSet) (env : NativeEnv) : CallResult :=
  match call_hwloc_int_normal api env with
  | Except.ok _positive => CallResult.ok
  | Except.error rawErr =>
    match rawErr.errno with
    | some e =>
      if e = ENOSYS then
        CallResult.rustErr (CpuBindingError.BadObject object)
      else if e = EXDEV then
        match cpuset with
        | some s => CallResult.rustErr (CpuBindingError.BadCpuSet object s)
        | none => CallResult.panicked
      else
        CallResult.hwlocErr rawErr
    | none => CallResult.hwlocErr rawErr

/-- Observable side effects of one invoker run: allocating the output
cpuset (`CpuSet::new()`) and performing the one native call. -/
inductive Event
  | allocCpuSet
  | nativeCall
deriving DecidableEq, Repr

/-- The `i32::try_from(flags.bits())` conversion performed inside the
ffi closures: succeeds exactly when the bit pattern fits in a
non-negative `i32`, i.e. bit 31 is clear. -/
def flags_to_i32 (f : CpuBindingFlags) : Option Int :=
  if f.bits < 2 ^ 31 then some (Int.ofNat f.bits) else none

/-- `Topology::bind_cpu_impl` from `src/cpu/binding.rs`: validate, then
perform the native call (the `.expect` on the flag conversion is the
`CallResult.panicked` outcome). The second component is the event
trace. -/
def bind_cpu_impl (set : CpuSet) (flags : CpuBindingFlags) (linux : Bool)
    (target : CpuBoundObject) (api : String) (env : NativeEnv) :
    CallResult × List Event :=
  match flags.validate linux target CpuBindingOperation.SetBinding with
  | none => (CallResult.rustErr (CpuBindingError.BadFlags flags), [])
  | some vflags =>
    match flags_to_i32 vflags with
    | none => (CallResult.panicked, [])
    | some _ => (call_hwloc api target (some set) env, [Event.nativeCall])

/-- Outcome of `Topology::get_cpuset`-style query functions. -/
inductive QueryOutcome
  | ok (set : CpuSet)
  | rustErr (e : CpuBindingError)
  | hwlocErr (e : RawHwlocError)
  | panicked
deriving DecidableEq, Repr

/-- `Topology::get_cpuset` from `src/cpu/binding.rs`: validate, then
allocate the output cpuset, then perform the native call; on success the
query returns the cpuset the native call wrote. -/
def get_cpuset (flags : CpuBindingFlags) (linux : Bool)
    (target : CpuBoundObject) (operation : CpuBindingOperation)
    (api : String) (env : NativeEnv) : QueryOutcome × List Event :=
  match flags.validate linux target operation with
  | none => (QueryOutcome.rustErr (CpuBindingError.BadFlags flags), [])
  | some vflags =>
    match flags_to_i32 vflags with
    | none => (QueryOutcome.panicked, [Event.allocCpuSet])
    | some _ =>
      match call_hwloc api target none env with
      | CallResult.ok =>
        (QueryOutcome.ok env.output, [Event.allocCpuSet, Event.nativeCall])
      | CallResult.rustErr e =>
        (QueryOutcome.rustErr e, [Event.allocCpuSet, Event.nativeCall])
      | CallResult.hwlocErr e =>
        (QueryOutcome.hwlocErr e, [Event.allocCpuSet, Event.nativeCall])
      | CallResult.panicked =>
        (QueryOutcome.panicked, [Event.allocCpuSet, Event.nativeCall])

/-- Outcome of `Topology::bind_cpu`: the public entry point declares the
`HybridError::Hwloc` branch unreachable, so an unexpected raw native
error becomes a panic. -/
inductive BindCpuOutcome
  | ok
  | err (e : CpuBindingError)
  | panicked
deriving DecidableEq, Repr

/-- `Topology::bind_cpu` from `src/cpu/binding.rs`: bind the current
program, turning the `HybridError::Hwloc` case into a panic
(`unreachable!`). -/
def bind_cpu (set : CpuSet) (flags : CpuBindingFlags) (linux : Bool)
    (env : NativeEnv) : BindCpuOutcome × List Event :=
  let res := bind_cpu_impl set flags linux CpuBoundObject.ThisProgram
    "hwloc_set_cpubind" env
  (match res.1 with
   | CallResult.ok => BindCpuOutcome.ok
   | CallResult.rustErr e => BindCpuOutcome.err e
   | CallResult.hwlocErr _ => BindCpuOutcome.panicked
   | CallResult.panicked => BindCpuOutcome.panicked,
   res.2)

/-- Memory binding flags (`MemoryBindingFlags` in
`src/memory/binding.rs`): one Boolean field per flag bit. Field order
follows the source declaration order (`PROCESS = 1<<0`, `THREAD = 1<<1`,
`STRICT = 1<<2`, `MIGRATE = 1<<3`, `NO_CPU_BINDING = 1<<4`,
`BY_NODE_SET = 1<<5`). -/
structure MemoryBindingFlags where
  process : Bool
  thread : Bool
  strict : Bool
  migrate : Bool
  no_cpu_binding : Bool
  by_node_set : Bool
deriving DecidableEq, Repr, Fintype

/-- Memory binding target (`MemoryBindingTarget` in
`src/memory/binding.rs`). -/
inductive MemoryBindingTarget
  | Process
  | Area
  | None
deriving DecidableEq, Repr, Fintype

/-- Memory binding operation (`MemoryBindingOperation` in
`src/memory/binding.rs`). -/
inductive MemoryBindingOperation
  | GetBinding
  | Bind
  | Unbind
  | Allocate
  | GetLastLocation
deriving DecidableEq, Repr, Fintype

/-- `MemoryBindingFlags::is_valid` from `src/memory/binding.rs`: truth
that these flags are in a valid state for the given target and
operation. -/
def MemoryBindingFlags.is_valid (self : MemoryBindingFlags)
    (target : MemoryBindingTarget) (operation : MemoryBindingOperation) :
    Bool :=
  -- Intrinsically incompatible flag combination
  if self.process && self.thread then
    false
  else
    -- Support for PROCESS and THREAD
    let good_for_target :=
      match target with
      | MemoryBindingTarget.Area => !(self.process || self.thread)
      | MemoryBindingTarget.Process => !self.thread
      | MemoryBindingTarget.None => true
    -- Support for STRICT, MIGRATE and NO_CPU_BINDING
    good_for_target &&
      match operation with
      | MemoryBindingOperation.GetLastLocation =>
        !(self.strict || self.migrate || self.no_cpu_binding)
      | MemoryBindingOperation.GetBinding =>
        if self.migrate || self.no_cpu_binding then
          false
        else
          match target with
          | MemoryBindingTarget.Area | MemoryBindingTarget.Process => true
          | MemoryBindingTarget.None => !self.strict || self.process
      | MemoryBindingOperation.Unbind => !(self.strict || self.migrate)
      | MemoryBindingOperation.Allocate => !self.migrate
      | MemoryBindingOperation.Bind => true

/-- Errors that can occur when binding memory to NUMA nodes
(`MemoryBindingSetupError` in `src/memory/binding.rs`); errno values are
modelled as `Int`. -/
inductive MemoryBindingSetupError
  | Unsupported
  | BadSet
  | AllocationFailed
  | UnexpectedErrno (errno : Int)
  | UnexpectedResult (code : Int) (errno : Int)
deriving DecidableEq, Repr

/-- `MemoryBindingSetupError::from_errno` from `src/memory/binding.rs`:
determine the error from the current errno value, passed explicitly
here since the Rust reads the process-global errno register. -/
def MemoryBindingSetupError.from_errno (errno : Int) :
    MemoryBindingSetupError :=
  if errno = ENOSYS then MemoryBindingSetupError.Unsupported
  else if errno = EXDEV then MemoryBindingSetupError.BadSet
  else if errno = ENOMEM then MemoryBindingSetupError.AllocationFailed
  else MemoryBindingSetupError.UnexpectedErrno errno

/-- `setup_result` from `src/memory/binding.rs`: result translation for
operations that set memory bindings (Bind/Unbind/Allocate). -/
def setup_result (result : Int) (errno : Int) :
    Except MemoryBindingSetupError Unit :=
  if 0 ≤ result then Except.ok ()
  else if result = -1 then
    Except.error (MemoryBindingSetupError.from_errno errno)
  else Except.error (MemoryBindingSetupError.UnexpectedResult result errno)

/-- Errors that can occur when querying memory bindings
(`MemoryBindingQueryError` in `src/memory/binding.rs`). -/
inductive MemoryBindingQueryError
  | MixedResults
  | InvalidRequest
  | UnexpectedErrno (errno : Int)
  | UnexpectedResult (code : Int) (errno : Int)
deriving DecidableEq, Repr

/-- `query_result_lazy` from `src/memory/binding.rs`, with the lazily
built success value taken eagerly (the embedding is pure). -/
def query_result_lazy {T : Type} (result : Int) (errno : Int) (ok : T) :
    Except MemoryBindingQueryError T :=
  if 0 ≤ result then Except.ok ok
  else if result = -1 then
    Except.error
      (if errno = EXDEV then MemoryBindingQueryError.MixedResults
       else if errno = EINVAL then MemoryBindingQueryError.InvalidRequest
       else MemoryBindingQueryError.UnexpectedErrno errno)
  else Except.error (MemoryBindingQueryError.UnexpectedResult result errno)

/-- Helper: the accept branch of `validate` always returns the flags
with the virtual `ASSUME_SINGLE_THREAD` bit cleared. -/
theorem validate_clears_ast :
    ∀ (f : CpuBindingFlags) (linux : Bool) (target : CpuBoundObject)
      (op : CpuBindingOperation) (v : CpuBindingFlags),
      f.validate linux target op = some v →
      v.assume_single_thread = false := by
  decide

/-- Helper: a flag set with bit 31 clear has a bit pattern below
`2 ^ 31`. -/
theorem bits_lt_of_ast_false (v : CpuBindingFlags)
    (h : v.assume_single_thread = false) : v.bits < 2 ^ 31 := by
  obtain ⟨a, b, c, d, e⟩ := v
  simp only at h
  subst h
  revert b c d e
  decide

/-- Claim C1 counterexample: the flag set `PROCESS | NO_MEMORY_BINDING`
has exactly one target-selector flag set, yet
`validate(flags, ThisProgram, GetBinding)` rejects it (because
`NO_MEMORY_BINDING` is forbidden for `GetBinding`), so acceptance is not
equivalent to the target-selector arity condition for every operation. -/
theorem c1_counterexample :
    CpuBindingFlags.numTargetFlags ⟨false, false, true, false, true⟩ = 1 ∧
    CpuBindingFlags.validate ⟨false, false, true, false, true⟩ true
      CpuBoundObject.ThisProgram CpuBindingOperation.GetBinding = none := by
  decide

/-- Claim C1 (amended): for target `ThisProgram`, having exactly one of
the target-selector flags {ASSUME_SINGLE_THREAD, THREAD, PROCESS} set is
necessary for `validate` to accept under every operation (so zero or
two-or-more selectors are always rejected), and for the `SetBinding`
operation — which imposes no operation-specific flag restriction — it is
also sufficient. -/
theorem c1_target_arity :
    ∀ (linux : Bool) (f : CpuBindingFlags) (op : CpuBindingOperation),
      ((f.validate linux CpuBoundObject.ThisProgram op).isSome →
        f.numTargetFlags = 1) ∧
      (f.numTargetFlags = 1 →
        (f.validate linux CpuBoundObject.ThisProgram
          CpuBindingOperation.SetBinding).isSome) := by
  decide

/-- Claim C1 witness: a single `THREAD` selector is accepted for
`SetBinding` on `ThisProgram`, and acceptance implies selector arity
one. -/
theorem c1_witness :
    CpuBindingFlags.numTargetFlags ⟨false, true, false, false, false⟩ = 1 ∧
    (CpuBindingFlags.validate ⟨false, true, false, false, false⟩ true
      CpuBoundObject.ThisProgram CpuBindingOperation.SetBinding).isSome :=
  ⟨(c1_target_arity true ⟨false, true, false, false, false⟩
      CpuBindingOperation.SetBinding).1
      ((c1_target_arity true ⟨false, true, false, false, false⟩
        CpuBindingOperation.SetBinding).2 (by decide)),
   (c1_target_arity true ⟨false, true, false, false, false⟩
      CpuBindingOperation.SetBinding).2 (by decide)⟩

/-- Claim C2: when flag validation rejects, every CPU binding entry
point returns `BadFlags` carrying the requested flags with an empty
event trace (no native call, no output cpuset allocation), and the
output cpuset allocation of query operations only ever happens after
validation has succeeded. -/
theorem c2_rejection_is_pure :
    ∀ (set : CpuSet) (f : CpuBindingFlags) (linux : Bool)
      (target : CpuBoundObject) (op : CpuBindingOperation) (api : String)
      (env : NativeEnv),
      (f.validate linux target CpuBindingOperation.SetBinding = none →
        bind_cpu_impl set f linux target api env =
          (CallResult.rustErr (CpuBindingError.BadFlags f), [])) ∧
      (f.validate linux target op = none →
        get_cpuset f linux target op api env =
          (QueryOutcome.rustErr (CpuBindingError.BadFlags f), [])) ∧
      (Event.allocCpuSet ∈ (get_cpuset f linux target op api env).2 →
        (f.validate linux target op).isSome) := by
  intro set f linux target op api env
  refine ⟨?_, ?_, ?_⟩
  · intro h
    simp [bind_cpu_impl, h]
  · intro h
    simp [get_cpuset, h]
  · intro hmem
    cases hv : f.validate linux target op with
    | none => simp [get_cpuset, hv] at hmem
    | some v => simp [hv]

/-- Claim C2 witness: the two-target-selector flag set
`THREAD | PROCESS` is rejected and both entry points return `BadFlags`
with an empty trace. -/
theorem c2_witness :
    bind_cpu_impl 0 ⟨false, true, true, false, false⟩ true
        CpuBoundObject.ThisProgram "hwloc_set_cpubind"
        { result := 0, osErrno := none, output := 0 } =
      (CallResult.rustErr
        (CpuBindingError.BadFlags ⟨false, true, true, false, false⟩), []) ∧
    get_cpuset ⟨false, true, true, false, false⟩ true
        CpuBoundObject.ThisProgram CpuBindingOperation.GetBinding
        "hwloc_get_cpubind" { result := 0, osErrno := none, output := 0 } =
      (QueryOutcome.rustErr
        (CpuBindingError.BadFlags ⟨false, true, true, false, false⟩), []) :=
  ⟨(c2_rejection_is_pure 0 ⟨false, true, true, false, false⟩ true
      CpuBoundObject.ThisProgram CpuBindingOperation.GetBinding
      "hwloc_set_cpubind" { result := 0, osErrno := none, output := 0 }).1
      (by decide),
   (c2_rejection_is_pure 0 ⟨false, true, true, false, false⟩ true
      CpuBoundObject.ThisProgram CpuBindingOperation.GetBinding
      "hwloc_get_cpubind" { result := 0, osErrno := none, output := 0 }).2.1
      (by decide)⟩

/-- Claim C3: for CPU binding, `call_hwloc` returns success on a native
result ≥ 0; on a failing call it maps errno `ENOSYS` to
`BadObject(target)`, errno `EXDEV` to `BadCpuSet(target, requested_set)`,
and surfaces any other errno as the raw native error
(`HybridError::Hwloc` carrying the failing API name and that exact
errno) rather than coercing it into a structured `CpuBindingError`. -/
theorem c3_call_hwloc_translation :
    ∀ (api : String) (obj : CpuBoundObject) (s : CpuSet) (env : NativeEnv),
      (0 ≤ env.result → call_hwloc api obj (some s) env = CallResult.ok) ∧
      (env.result < 0 → env.osErrno = some ENOSYS →
        call_hwloc api obj (some s) env =
          CallResult.rustErr (CpuBindingError.BadObject obj)) ∧
      (env.result < 0 → env.osErrno = some EXDEV →
        call_hwloc api obj (some s) env =
          CallResult.rustErr (CpuBindingError.BadCpuSet obj s)) ∧
      (∀ e, env.result < 0 → env.osErrno = some e →
        e ≠ ENOSYS → e ≠ EXDEV →
        call_hwloc api obj (some s) env =
          CallResult.hwlocErr { api := api, errno := some e }) := by
  intro api obj s env
  refine ⟨?_, ?_, ?_, ?_⟩
  · intro h
    simp [call_hwloc, call_hwloc_int_normal, h]
  · intro h1 h2
    simp [call_hwloc, call_hwloc_int_normal, not_le.mpr h1, h2]
  · intro h1 h2
    simp [call_hwloc, call_hwloc_int_normal, not_le.mpr h1, h2, EXDEV, ENOSYS]
  · intro e h1 h2 h3 h4
    simp [call_hwloc, call_hwloc_int_normal, not_le.mpr h1, h2, h3, h4]

/-- Claim C3 witness: a failing native call with errno `ENOSYS` is
translated to `BadObject(ThisProgram)`. -/
theorem c3_witness :
    call_hwloc "hwloc_set_cpubind" CpuBoundObject.ThisProgram (some 5)
        { result := -1, osErrno := some ENOSYS, output := 0 } =
      CallResult.rustErr
        (CpuBindingError.BadObject CpuBoundObject.ThisProgram) :=
  (c3_call_hwloc_translation "hwloc_set_cpubind" CpuBoundObject.ThisProgram 5
      { result := -1, osErrno := some ENOSYS, output := 0 }).2.1
    (by decide) rfl

/-- Claim C4: `setup_result` succeeds exactly on native results ≥ 0;
a result of -1 is translated through errno (`ENOSYS` → `Unsupported`,
`EXDEV` → `BadSet`, `ENOMEM` → `AllocationFailed`, anything else →
`UnexpectedErrno` with that exact errno), and any other negative result
becomes `UnexpectedResult` carrying both the raw code and the errno. -/
theorem c4_setup_result_translation :
    ∀ (result errno : Int),
      (setup_result result errno = Except.ok () ↔ 0 ≤ result) ∧
      (result = -1 →
        setup_result result errno =
            Except.error (MemoryBindingSetupError.from_errno errno) ∧
          (errno = ENOSYS → setup_result result errno =
            Except.error MemoryBindingSetupError.Unsupported) ∧
          (errno = EXDEV → setup_result result errno =
            Except.error MemoryBindingSetupError.BadSet) ∧
          (errno = ENOMEM → setup_result result errno =
            Except.error MemoryBindingSetupError.AllocationFailed) ∧
          (errno ≠ ENOSYS → errno ≠ EXDEV → errno ≠ ENOMEM →
            setup_result result errno =
              Except.error (MemoryBindingSetupError.UnexpectedErrno errno))) ∧
      (result < 0 → result ≠ -1 →
        setup_result result errno =
          Except.error
            (MemoryBindingSetupError.UnexpectedResult result errno)) := by
  intro result errno
  refine ⟨?_, ?_, ?_⟩
  · unfold setup_result
    split_ifs with h0 h1 <;> simp [h0]
  · intro h
    subst h
    refine ⟨by simp [setup_result], ?_, ?_, ?_, ?_⟩
    · intro he
      simp [setup_result, MemoryBindingSetupError.from_errno, he]
    · intro he
      simp [setup_result, MemoryBindingSetupError.from_errno, he, EXDEV,
        ENOSYS]
    · intro he
      simp [setup_result, MemoryBindingSetupError.from_errno, he, EXDEV,
        ENOSYS, ENOMEM]
    · intro h1 h2 h3
      simp [setup_result, MemoryBindingSetupError.from_errno, h1, h2, h3]
  · intro h1 h2
    simp [setup_result, not_le.mpr h1, h2]

/-- Claim C4 witness: result -1 with errno `EXDEV` yields `BadSet`. -/
theorem c4_witness :
    setup_result (-1) EXDEV =
      Except.error MemoryBindingSetupError.BadSet :=
  ((c4_setup_result_translation (-1) EXDEV).2.1 rfl).2.2.1 rfl

/-- Claim C5: whenever `CpuBindingFlags::validate` accepts, the
normalized flags it returns have the virtual `ASSUME_SINGLE_THREAD` bit
cleared; in particular `validate(ASSUME_SINGLE_THREAD, ThisProgram,
SetBinding)` succeeds on every platform and returns the empty flag
set. -/
theorem c5_ast_removed :
    (∀ (f : CpuBindingFlags) (linux : Bool) (target : CpuBoundObject)
        (op : CpuBindingOperation) (v : CpuBindingFlags),
        f.validate linux target op = some v →
        v.assume_single_thread = false) ∧
    (∀ linux : Bool,
      CpuBindingFlags.validate ⟨true, false, false, false, false⟩ linux
          CpuBoundObject.ThisProgram CpuBindingOperation.SetBinding =
        some ⟨false, false, false, false, false⟩) :=
  ⟨fun f linux target op v h => validate_clears_ast f linux target op v h,
   by decide⟩

/-- Claim C5 witness: the accepted flag set `PROCESS | STRICT` comes back
with `ASSUME_SINGLE_THREAD` clear. -/
theorem c5_witness :
    (CpuBindingFlags.mk false false true true false).assume_single_thread =
      false :=
  c5_ast_removed.1 ⟨false, false, true, true, false⟩ true
    CpuBoundObject.ThisProgram CpuBindingOperation.SetBinding
    ⟨false, false, true, true, false⟩ (by decide)

/-- Claim C6: `validate(Thread, ProcessOrThread, SetBinding)` succeeds
on the platform with the Linux special case and fails on the other
platforms; more generally, off Linux every flag set containing `THREAD`
with target `ProcessOrThread` is rejected for every operation. -/
theorem c6_linux_special_case :
    (CpuBindingFlags.validate ⟨false, true, false, false, false⟩ true
        CpuBoundObject.ProcessOrThread
        CpuBindingOperation.SetBinding).isSome ∧
    (∀ (f : CpuBindingFlags) (op : CpuBindingOperation),
        f.thread = true →
        f.validate false CpuBoundObject.ProcessOrThread op = none) := by
  decide

/-- Claim C6 witness: off Linux, `validate(Thread, ProcessOrThread,
SetBinding)` is rejected. -/
theorem c6_witness :
    CpuBindingFlags.validate ⟨false, true, false, false, false⟩ false
        CpuBoundObject.ProcessOrThread CpuBindingOperation.SetBinding =
      none :=
  c6_linux_special_case.2 ⟨false, true, false, false, false⟩
    CpuBindingOperation.SetBinding rfl

/-- Claim C7: the memory-binding validator rejects every flag set that
contains both `PROCESS` and `THREAD`, for every target and every
operation. -/
theorem c7_process_thread_exclusive :
    ∀ (f : MemoryBindingFlags) (target : MemoryBindingTarget)
      (op : MemoryBindingOperation),
      f.process = true → f.thread = true →
      f.is_valid target op = false := by
  decide

/-- Claim C7 witness: `PROCESS | THREAD` is invalid for a `Bind` on
target `None`. -/
theorem c7_witness :
    MemoryBindingFlags.is_valid ⟨true, true, false, false, false, false⟩
        MemoryBindingTarget.None MemoryBindingOperation.Bind = false :=
  c7_process_thread_exclusive ⟨true, true, false, false, false, false⟩
    MemoryBindingTarget.None MemoryBindingOperation.Bind rfl rfl

/-- Claim C8: for `GetBinding` with target `None`, `STRICT` alone is
rejected while `STRICT | PROCESS` is accepted. -/
theorem c8_strict_needs_process :
    MemoryBindingFlags.is_valid ⟨false, false, true, false, false, false⟩
        MemoryBindingTarget.None MemoryBindingOperation.GetBinding = false ∧
    MemoryBindingFlags.is_valid ⟨true, false, true, false, false, false⟩
        MemoryBindingTarget.None MemoryBindingOperation.GetBinding = true := by
  decide

/-- Claim C9: `Topology::bind_cpu` declares the `HybridError::Hwloc`
branch unreachable, so when the native call fails with an errno other
than `ENOSYS` and `EXDEV` (or with no readable errno) it panics instead
of returning an error; consequently every non-panicking return is either
success or one of the structured `CpuBindingError` variants `BadObject`,
`BadCpuSet`, `BadFlags`. -/
theorem c9_bind_cpu_unreachable_branch :
    ∀ (set : CpuSet) (f : CpuBindingFlags) (linux : Bool) (env : NativeEnv),
      ((f.validate linux CpuBoundObject.ThisProgram
          CpuBindingOperation.SetBinding).isSome →
        env.result < 0 →
        (env.osErrno = none ∨
          ∃ e, env.osErrno = some e ∧ e ≠ ENOSYS ∧ e ≠ EXDEV) →
        (bind_cpu set f linux env).1 = BindCpuOutcome.panicked) ∧
      ((bind_cpu set f linux env).1 ≠ BindCpuOutcome.panicked →
        (bind_cpu set f linux env).1 = BindCpuOutcome.ok ∨
        (∃ o, (bind_cpu set f linux env).1 =
          BindCpuOutcome.err (CpuBindingError.BadObject o)) ∨
        (∃ o s, (bind_cpu set f linux env).1 =
          BindCpuOutcome.err (CpuBindingError.BadCpuSet o s)) ∨
        (∃ g, (bind_cpu set f linux env).1 =
          BindCpuOutcome.err (CpuBindingError.BadFlags g))) := by
  intro set f linux env
  constructor
  · intro h hres herrno
    obtain ⟨v, hv⟩ := Option.isSome_iff_exists.mp h
    have hast := validate_clears_ast f linux CpuBoundObject.ThisProgram
      CpuBindingOperation.SetBinding v hv
    have hlt := bits_lt_of_ast_false v hast
    norm_num at hlt
    rcases herrno with hnone | ⟨e, he, hne1, hne2⟩
    · simp [bind_cpu, bind_cpu_impl, hv, flags_to_i32, hlt, call_hwloc,
        call_hwloc_int_normal, not_le.mpr hres, hnone]
    · simp [bind_cpu, bind_cpu_impl, hv, flags_to_i32, hlt, call_hwloc,
        call_hwloc_int_normal, not_le.mpr hres, he, hne1, hne2]
  · intro hnp
    cases hb : (bind_cpu set f linux env).1 with
    | ok => exact Or.inl rfl
    | err e =>
      cases e with
      | BadObject o => exact Or.inr (Or.inl ⟨o, rfl⟩)
      | BadFlags g => exact Or.inr (Or.inr (Or.inr ⟨g, rfl⟩))
      | BadCpuSet o s => exact Or.inr (Or.inr (Or.inl ⟨o, s, rfl⟩))
    | panicked => exact absurd hb hnp

/-- Claim C9 witness: a valid `PROCESS` request whose native call fails
with errno 5 (neither `ENOSYS` nor `EXDEV`) makes `bind_cpu` panic. -/
theorem c9_witness :
    (bind_cpu 0 ⟨false, false, true, false, false⟩ true
        { result := -1, osErrno := some 5, output := 0 }).1 =
      BindCpuOutcome.panicked :=
  (c9_bind_cpu_unreachable_branch 0 ⟨false, false, true, false, false⟩ true
      { result := -1, osErrno := some 5, output := 0 }).1
    (by decide) (by decide) (Or.inr ⟨5, rfl, by decide, by decide⟩)

/-- Claim C10: every flag set accepted by `validate` has a bit pattern
below `2 ^ 31` — `ASSUME_SINGLE_THREAD`, the only flag on bit 31, is
always removed — so the `i32::try_from(flags.bits())` conversion
performed after successful validation always succeeds and never reaches
its panic. -/
theorem c10_validated_flags_fit_i32 :
    ∀ (f : CpuBindingFlags) (linux : Bool) (target : CpuBoundObject)
      (op : CpuBindingOperation) (v : CpuBindingFlags),
      f.validate linux target op = some v →
      v.bits < 2 ^ 31 ∧ flags_to_i32 v = some (Int.ofNat v.bits) := by
  intro f linux target op v h
  have hast := validate_clears_ast f linux target op v h
  have hlt := bits_lt_of_ast_false v hast
  refine ⟨hlt, ?_⟩
  norm_num at hlt
  simp [flags_to_i32, hlt]

/-- Claim C10 witness: the validated form of a `PROCESS | STRICT`
request fits in a non-negative `i32`. -/
theorem c10_witness :
    CpuBindingFlags.bits ⟨false, false, true, true, false⟩ < 2 ^ 31 ∧
    flags_to_i32 ⟨false, false, true, true, false⟩ =
      some (Int.ofNat
        (CpuBindingFlags.bits ⟨false, false, true, true, false⟩)) :=
  c10_validated_flags_fit_i32 ⟨false, false, true, true, false⟩ true
    CpuBoundObject.ThisProgram CpuBindingOperation.SetBinding
    ⟨false, false, true, true, false⟩ (by decide)
